import Mathlib

/-!
Verification of the pdfsat presentation-navigation core (src/pdfsat.py).

The development shallowly embeds the navigation state machine of
`PresenterWindow` (fields `current_slide`, `preview_slide`,
`last_preview_before_updown`, `last_preview_used`, `remembered_preview`
and the methods `next_slide`, `prev_slide`, `preview_next`,
`preview_prev`, `preview_restore_last`, `preview_set_next`,
`preview_set_prev`, `preview_remember`, `preview_goto_remembered`,
`_load_pdf`, `update_slides`), the slide cache (`SlideCache`), and the
notes parser (`NotesLoader._parse_notes`).  Slide indices are modelled
as `Int` (Python integers are unbounded and may go negative here).
-/

/-- Navigation state of `PresenterWindow`: `current_slide`,
`preview_slide`, `last_preview_before_updown` (None ↦ `none`),
`last_preview_used`, `remembered_preview` (None ↦ `none`). -/
structure NavState where
  currentSlide : Int
  previewSlide : Int
  lastPreviewBeforeUpdown : Option Int
  lastPreviewUsed : Bool
  rememberedPreview : Option Int
deriving DecidableEq, Repr

/-- `PresenterWindow.next_slide` (src/pdfsat.py lines 799-814), assuming a
document is loaded (`self.slide_cache` truthy) with `total` pages.  The
guarded body records the jump origin, possibly clears it, moves
`current_slide` to `preview_slide`, and re-syncs `preview_slide` to
`current_slide + 1` clamped to `total - 1`. -/
def nextSlide (total : Int) (s : NavState) : NavState :=
  if s.previewSlide < total then
    let s1 :=
      if s.previewSlide ≠ s.currentSlide + 1 ∧ s.lastPreviewBeforeUpdown = none then
        { s with lastPreviewBeforeUpdown := some s.currentSlide }
      else s
    let s2 :=
      if s1.lastPreviewUsed = true ∧ s1.lastPreviewBeforeUpdown = some s1.previewSlide then
        { s1 with lastPreviewUsed := false, lastPreviewBeforeUpdown := none }
      else s1
    let cur := s2.previewSlide
    let pre := cur + 1
    let pre := if total ≤ pre then total - 1 else pre
    { s2 with currentSlide := cur, previewSlide := pre }
  else s

/-- `PresenterWindow.prev_slide` (lines 816-823). -/
def prevSlide (total : Int) (s : NavState) : NavState :=
  if 0 < s.currentSlide then
    let cur := s.currentSlide - 1
    let pre := cur + 1
    let pre := if total ≤ pre then total - 1 else pre
    { s with currentSlide := cur, previewSlide := pre }
  else s

/-- `PresenterWindow.preview_next` (lines 825-829). -/
def previewNext (total : Int) (s : NavState) : NavState :=
  if s.previewSlide < total - 1 then
    { s with previewSlide := s.previewSlide + 1 }
  else s

/-- `PresenterWindow.preview_prev` (lines 831-835). -/
def previewPrev (s : NavState) : NavState :=
  if 0 < s.previewSlide then
    { s with previewSlide := s.previewSlide - 1 }
  else s

/-- `PresenterWindow.preview_restore_last` (lines 837-842). -/
def previewRestoreLast (s : NavState) : NavState :=
  match s.lastPreviewBeforeUpdown with
  | some p => { s with previewSlide := p, lastPreviewUsed := true }
  | none => s

/-- `PresenterWindow.preview_set_next` (lines 844-850). -/
def previewSetNext (total : Int) (s : NavState) : NavState :=
  let pre := s.currentSlide + 1
  let pre := if total ≤ pre then total - 1 else pre
  { s with previewSlide := pre }

/-- `PresenterWindow.preview_set_prev` (lines 852-858). -/
def previewSetPrev (s : NavState) : NavState :=
  let pre := s.currentSlide - 1
  let pre := if pre < 0 then 0 else pre
  { s with previewSlide := pre }

/-- `PresenterWindow.preview_remember` (lines 860-863). -/
def previewRemember (s : NavState) : NavState :=
  { s with rememberedPreview := some s.previewSlide }

/-- `PresenterWindow.preview_goto_remembered` (lines 865-869). -/
def previewGotoRemembered (s : NavState) : NavState :=
  match s.rememberedPreview with
  | some p => { s with previewSlide := p }
  | none => s

/-- The navigation-state part of `PresenterWindow._load_pdf`
(lines 699-716): restore of `current_slide` from config when
`restore_slide` (clamped to the valid range, else 0), re-computation of
`preview_slide` as `current_slide + 1` clamped to `total - 1`, and reset
of the two optional slots and the used flag. -/
def loadNav (total : Int) (restoreSlide : Bool) (lastSlideCfg : Int) : NavState :=
  let cur :=
    if restoreSlide then
      if 0 ≤ lastSlideCfg ∧ lastSlideCfg < total then lastSlideCfg else 0
    else 0
  let pre := cur + 1
  let pre := if total ≤ pre then total - 1 else pre
  { currentSlide := cur, previewSlide := pre,
    lastPreviewBeforeUpdown := none, lastPreviewUsed := false,
    rememberedPreview := none }

/-- The nine navigation commands of the core (§6 of the spec), named as
in the spec; each is dispatched to the corresponding
`PresenterWindow` method. -/
inductive NavCmd where
  | advance
  | retreat
  | previewStepForward
  | previewStepBackward
  | previewRestore
  | previewSetToNext
  | previewSetToPrev
  | rememberCmd
  | recallCmd
deriving DecidableEq, Repr

/-- Dispatch one navigation command (`rememberCmd` is the spec's
`remember`, `recallCmd` its `recall`). -/
def runCmd (total : Int) (c : NavCmd) (s : NavState) : NavState :=
  match c with
  | .advance => nextSlide total s
  | .retreat => prevSlide total s
  | .previewStepForward => previewNext total s
  | .previewStepBackward => previewPrev s
  | .previewRestore => previewRestoreLast s
  | .previewSetToNext => previewSetNext total s
  | .previewSetToPrev => previewSetPrev s
  | .rememberCmd => previewRemember s
  | .recallCmd => previewGotoRemembered s

/-- Run a sequence of navigation commands left to right. -/
def runCmds (total : Int) (cs : List NavCmd) (s : NavState) : NavState :=
  cs.foldl (fun t c => runCmd total c t) s

/-- An optional slot, when set, holds an index in `[0, total)`. -/
def okOpt (total : Int) : Option Int → Prop
  | none => True
  | some p => 0 ≤ p ∧ p < total

instance (total : Int) (o : Option Int) : Decidable (okOpt total o) := by
  cases o <;> simp [okOpt] <;> infer_instance

/-- The inductive navigation invariant: `current` and `preview` in
`[0, total)` and both optional slots in range when set. -/
def NavInv (total : Int) (s : NavState) : Prop :=
  (0 ≤ s.currentSlide ∧ s.currentSlide < total) ∧
  (0 ≤ s.previewSlide ∧ s.previewSlide < total) ∧
  okOpt total s.lastPreviewBeforeUpdown ∧
  okOpt total s.rememberedPreview

instance (total : Int) (s : NavState) : Decidable (NavInv total s) := by
  unfold NavInv; infer_instance

theorem loadNav_inv (total : Int) (ht : 1 ≤ total) (r : Bool) (cfg : Int) :
    NavInv total (loadNav total r cfg) := by
  unfold loadNav NavInv okOpt
  split_ifs <;> simp_all <;> omega

theorem nextSlide_inv (total : Int) (ht : 1 ≤ total) (s : NavState)
    (h : NavInv total s) : NavInv total (nextSlide total s) := by
  obtain ⟨hc, hp, ho, hr⟩ := h
  unfold nextSlide
  by_cases h1 : s.previewSlide < total
  · rw [if_pos h1]
    try dsimp only
    by_cases h2 : s.previewSlide ≠ s.currentSlide + 1 ∧ s.lastPreviewBeforeUpdown = none
    · rw [if_pos h2]
      try dsimp only
      split_ifs <;>
        refine ⟨⟨?_, ?_⟩, ⟨?_, ?_⟩, ?_, ?_⟩ <;>
          simp_all [okOpt] <;> omega
    · rw [if_neg h2]
      try dsimp only
      split_ifs <;>
        refine ⟨⟨?_, ?_⟩, ⟨?_, ?_⟩, ?_, ?_⟩ <;>
          simp_all [okOpt] <;> omega
  · rw [if_neg h1]
    exact ⟨hc, hp, ho, hr⟩

theorem prevSlide_inv (total : Int) (ht : 1 ≤ total) (s : NavState)
    (h : NavInv total s) : NavInv total (prevSlide total s) := by
  obtain ⟨hc, hp, ho, hr⟩ := h
  unfold prevSlide
  try dsimp only
  split_ifs <;>
    refine ⟨⟨?_, ?_⟩, ⟨?_, ?_⟩, ?_, ?_⟩ <;>
      simp_all [okOpt] <;> omega

theorem previewNext_inv (total : Int) (s : NavState)
    (h : NavInv total s) : NavInv total (previewNext total s) := by
  obtain ⟨hc, hp, ho, hr⟩ := h
  unfold previewNext
  try dsimp only
  split_ifs <;>
    refine ⟨⟨?_, ?_⟩, ⟨?_, ?_⟩, ?_, ?_⟩ <;>
      simp_all [okOpt] <;> omega

theorem previewPrev_inv (total : Int) (s : NavState)
    (h : NavInv total s) : NavInv total (previewPrev s) := by
  obtain ⟨hc, hp, ho, hr⟩ := h
  unfold previewPrev
  try dsimp only
  split_ifs <;>
    refine ⟨⟨?_, ?_⟩, ⟨?_, ?_⟩, ?_, ?_⟩ <;>
      simp_all [okOpt] <;> omega

theorem previewRestoreLast_inv (total : Int) (s : NavState)
    (h : NavInv total s) : NavInv total (previewRestoreLast s) := by
  obtain ⟨hc, hp, ho, hr⟩ := h
  unfold previewRestoreLast
  cases hcase : s.lastPreviewBeforeUpdown with
  | none => exact ⟨hc, hp, ho, hr⟩
  | some p =>
    rw [hcase] at ho
    simp only [okOpt] at ho
    try dsimp only
    exact ⟨hc, ho, ho, hr⟩

theorem previewSetNext_inv (total : Int) (ht : 1 ≤ total) (s : NavState)
    (h : NavInv total s) : NavInv total (previewSetNext total s) := by
  obtain ⟨hc, hp, ho, hr⟩ := h
  unfold previewSetNext
  try dsimp only
  split_ifs <;>
    refine ⟨⟨?_, ?_⟩, ⟨?_, ?_⟩, ?_, ?_⟩ <;>
      simp_all [okOpt] <;> omega

theorem previewSetPrev_inv (total : Int) (s : NavState)
    (h : NavInv total s) : NavInv total (previewSetPrev s) := by
  obtain ⟨hc, hp, ho, hr⟩ := h
  unfold previewSetPrev
  try dsimp only
  split_ifs <;>
    refine ⟨⟨?_, ?_⟩, ⟨?_, ?_⟩, ?_, ?_⟩ <;>
      simp_all [okOpt] <;> omega

theorem previewRemember_inv (total : Int) (s : NavState)
    (h : NavInv total s) : NavInv total (previewRemember s) := by
  obtain ⟨hc, hp, ho, hr⟩ := h
  exact ⟨hc, hp, ho, hp⟩

theorem previewGotoRemembered_inv (total : Int) (s : NavState)
    (h : NavInv total s) : NavInv total (previewGotoRemembered s) := by
  obtain ⟨hc, hp, ho, hr⟩ := h
  unfold previewGotoRemembered
  cases hcase : s.rememberedPreview with
  | none => exact ⟨hc, hp, ho, hr⟩
  | some p =>
    rw [hcase] at hr
    simp only [okOpt] at hr
    try dsimp only
    exact ⟨hc, hr, ho, hr⟩

theorem runCmd_inv (total : Int) (ht : 1 ≤ total) (c : NavCmd) (s : NavState)
    (h : NavInv total s) : NavInv total (runCmd total c s) := by
  cases c with
  | advance => exact nextSlide_inv total ht s h
  | retreat => exact prevSlide_inv total ht s h
  | previewStepForward => exact previewNext_inv total s h
  | previewStepBackward => exact previewPrev_inv total s h
  | previewRestore => exact previewRestoreLast_inv total s h
  | previewSetToNext => exact previewSetNext_inv total ht s h
  | previewSetToPrev => exact previewSetPrev_inv total s h
  | rememberCmd => exact previewRemember_inv total s h
  | recallCmd => exact previewGotoRemembered_inv total s h

theorem runCmds_inv (total : Int) (ht : 1 ≤ total) (cs : List NavCmd)
    (s : NavState) (h : NavInv total s) : NavInv total (runCmds total cs s) := by
  induction cs generalizing s with
  | nil => exact h
  | cons c cs ih =>
    exact ih (runCmd total c s) (runCmd_inv total ht c s h)

/-- Lookup in an association list, mirroring a Python dict read
(`page_num in cache` / `cache[page_num]`); the most recent insertion
for a key is found first. -/
def lookupAssoc {β : Type} : List (Int × β) → Int → Option β
  | [], _ => none
  | (k, v) :: rest, q => if q = k then some v else lookupAssoc rest q

/-- State of `SlideCache`: the open document handle (`fitz.open`), its
page count, the two DPI tiers, and the two per-tier pixmap dicts.
Bitmaps are an opaque type `α` produced by the page rasterizer. -/
structure SlideCacheState (α : Type) where
  docOpen : Bool
  totalSlides : Int
  dpi : Int
  fullscreenDpi : Int
  cache : List (Int × α)
  fullscreenCache : List (Int × α)
deriving DecidableEq, Repr

/-- `SlideCache.__init__` (lines 166-172): open document with `total`
pages, default DPI tiers 150/300, both caches empty. -/
def mkSlideCache (α : Type) (total : Int) : SlideCacheState α :=
  { docOpen := true, totalSlides := total, dpi := 150, fullscreenDpi := 300,
    cache := [], fullscreenCache := [] }

/-- `SlideCache.close` (lines 197-200): close the document handle and
clear both tier caches. -/
def closeCache {α : Type} (c : SlideCacheState α) : SlideCacheState α :=
  { c with docOpen := false, cache := [], fullscreenCache := [] }

/-- `SlideCache.get_slide` (lines 174-195).  `raster` is the page
rasterizer (deterministic and pure per §2 of the spec), applied at the
tier-selected DPI.  The cache of the selected tier is consulted first;
on a miss the document is indexed (`self.doc[page_num]`, raising for a
closed document or a page outside `[-total, total)`; a negative index
wraps Python-style) and the rendered bitmap is stored.  The returned
`Bool` records whether the rasterizer was invoked. -/
def getSlide {α : Type} (raster : Int → Int → α) (c : SlideCacheState α)
    (pageNum : Int) (highRes : Bool) :
    Except String (α × SlideCacheState α × Bool) :=
  let targetDpi := if highRes then c.fullscreenDpi else c.dpi
  match lookupAssoc (if highRes then c.fullscreenCache else c.cache) pageNum with
  | some b => Except.ok (b, c, false)
  | none =>
    if c.docOpen = false then Except.error "document closed"
    else if 0 ≤ pageNum ∧ pageNum < c.totalSlides then
      let b := raster pageNum targetDpi
      let c' :=
        if highRes then { c with fullscreenCache := (pageNum, b) :: c.fullscreenCache }
        else { c with cache := (pageNum, b) :: c.cache }
      Except.ok (b, c', true)
    else if -c.totalSlides ≤ pageNum ∧ pageNum < 0 then
      let b := raster (c.totalSlides + pageNum) targetDpi
      let c' :=
        if highRes then { c with fullscreenCache := (pageNum, b) :: c.fullscreenCache }
        else { c with cache := (pageNum, b) :: c.cache }
      Except.ok (b, c', true)
    else Except.error "page not in document"

/-- State of `PresenterWindow` relevant to document loading: the
optional slide cache, the navigation fields, and the presenting flag
(the UI-only fields are out of scope per §1 of the spec). -/
structure PresenterState (α : Type) where
  slideCache : Option (SlideCacheState α)
  nav : NavState
  isPresenting : Bool
deriving DecidableEq, Repr

/-- Initial `PresenterWindow` field values (lines 378-384):
`current_slide = 0`, `preview_slide = 1`, both slots `None`, not
presenting, no cache. -/
def presenterInit (α : Type) : PresenterState α :=
  { slideCache := none, nav := ⟨0, 1, none, false, none⟩, isPresenting := false }

/-- Tail of `PresenterWindow.update_slides` (lines 792-794): when
presenting, render `current_slide` at the presentation tier; a raised
rasterization error propagates. -/
def updateSlidesPresent {α : Type} (raster : Int → Int → α)
    (ps : PresenterState α) : PresenterState α × Option String :=
  match ps.slideCache with
  | none => (ps, none)
  | some c =>
    if ps.isPresenting then
      match getSlide raster c ps.nav.currentSlide true with
      | Except.error e => (ps, some e)
      | Except.ok (_, c3, _) => ({ ps with slideCache := some c3 }, none)
    else (ps, none)

/-- `PresenterWindow.update_slides` (lines 757-797), restricted to its
cache/navigation effects: render `current_slide` at preview tier, then
`preview_slide` at preview tier when `preview_slide < total_slides`
(otherwise the "End of presentation" placeholder is shown instead),
then the presenting-tier render.  A raised error aborts the remaining
renders and propagates, leaving the mutations made so far in place. -/
def updateSlides {α : Type} (raster : Int → Int → α)
    (ps : PresenterState α) : PresenterState α × Option String :=
  match ps.slideCache with
  | none => (ps, none)
  | some c =>
    match getSlide raster c ps.nav.currentSlide false with
    | Except.error e => (ps, some e)
    | Except.ok (_, c1, _) =>
      if ps.nav.previewSlide < c1.totalSlides then
        match getSlide raster c1 ps.nav.previewSlide false with
        | Except.error e => ({ ps with slideCache := some c1 }, some e)
        | Except.ok (_, c2, _) =>
          updateSlidesPresent raster { ps with slideCache := some c2 }
      else updateSlidesPresent raster { ps with slideCache := some c1 }

/-- `PresenterWindow._load_pdf` (lines 674-731), restricted to its
cache/navigation effects.  The body runs in a `try` block: first the
existing cache, if any, is closed; then the new document is opened
(`openResult` is the outcome of the `SlideCache` construction); on
success the navigation state is re-initialised (`loadNav`) and, for a
manual (non-restoring) load, `update_slides` runs immediately (a
restoring load defers it via a timer, outside the `try`).  Any raised
error is caught and surfaced as a "Failed to load PDF" message,
leaving all mutations made before the raise in place. -/
def loadPdf {α : Type} (raster : Int → Int → α)
    (openResult : Except String (SlideCacheState α)) (restoreSlide : Bool)
    (lastSlideCfg : Int) (ps : PresenterState α) :
    PresenterState α × Option String :=
  let ps1 :=
    match ps.slideCache with
    | some c => { ps with slideCache := some (closeCache c) }
    | none => ps
  match openResult with
  | Except.error e => (ps1, some ("Failed to load PDF: " ++ e))
  | Except.ok nc =>
    let ps2 :=
      { ps1 with
        slideCache := some nc
        nav := loadNav nc.totalSlides restoreSlide lastSlideCfg }
    if restoreSlide then (ps2, none)
    else
      match updateSlides raster ps2 with
      | (ps3, some e) => (ps3, some ("Failed to load PDF: " ++ e))
      | (ps3, none) => (ps3, none)

/-- A concrete rasterizer for closed instances: encodes page and DPI
into the bitmap value. -/
def rasterDemo : Int → Int → Int := fun pg d => pg * 10000 + d

/-- A loaded one-page document whose page 0 is cached at the preview
tier (bitmap 150 = rasterDemo 0 150). -/
def cacheDemo : SlideCacheState Int :=
  { docOpen := true, totalSlides := 1, dpi := 150, fullscreenDpi := 300,
    cache := [(0, 150)], fullscreenCache := [] }

/-- A presenter that has `cacheDemo` loaded. -/
def presenterDemo : PresenterState Int :=
  { slideCache := some cacheDemo, nav := ⟨0, 0, none, false, none⟩,
    isPresenting := false }

/-- The `current=5, preview=6` starting state of the spec's §8
jump-origin scenario, both optional slots unset. -/
def jumpScenarioStart : NavState := ⟨5, 6, none, false, none⟩

/-- C1 (counterexample): on a single-slide deck loaded non-restoring
(`current=0, preview=0`), `advance` fires but sets `preview` to `0 =
total_slides - 1`, not to the end sentinel `1 = total_slides`: the
claimed post-state `preview = total_slides` is false. -/
theorem advance_end_sentinel_cex :
    (nextSlide 1 (loadNav 1 false 0)).previewSlide = 0 ∧ (0 : Int) ≠ 1 := by
  decide

/-- C1 (amended): for every loaded document with `total ≥ 1`, if
`preview < total` and `current + 1 ≥ total`, then after `advance` the
current slide equals the old preview and the preview equals
`min(old preview + 1, total - 1)`; the preview stays strictly below
`total`, so the end sentinel is never reached by `advance`. -/
theorem advance_at_last_clamps_preview (total : Int) (s : NavState)
    (ht : 1 ≤ total) (hpre : s.previewSlide < total)
    (hlast : total ≤ s.currentSlide + 1) :
    (nextSlide total s).currentSlide = s.previewSlide ∧
    (nextSlide total s).previewSlide =
      (if total ≤ s.previewSlide + 1 then total - 1 else s.previewSlide + 1) ∧
    (nextSlide total s).previewSlide < total := by
  unfold nextSlide
  rw [if_pos hpre]
  try dsimp only
  split_ifs <;> refine ⟨?_, ?_, ?_⟩ <;> simp_all <;> omega

/-- Witness for C1 (amended) at the single-slide deck. -/
theorem advance_at_last_clamps_preview_witness :
    (nextSlide 1 ⟨0, 0, none, false, none⟩).currentSlide = 0 ∧
    (nextSlide 1 ⟨0, 0, none, false, none⟩).previewSlide =
      (if (1 : Int) ≤ 0 + 1 then 1 - 1 else 0 + 1) ∧
    (nextSlide 1 ⟨0, 0, none, false, none⟩).previewSlide < 1 :=
  advance_at_last_clamps_preview 1 ⟨0, 0, none, false, none⟩
    (by decide) (by decide) (by decide)

/-- C2 (counterexample): from `current=5, preview=6` (total 7), three
`preview_step_backward` leave `pending_jump_origin` unset — not `5` as
claimed — and the full five-command sequence ends with `current = 3`,
`preview = 4`, not `current = 5`, `preview = 6`. -/
theorem jump_origin_scenario_cex :
    (runCmds 7 [.previewStepBackward, .previewStepBackward,
      .previewStepBackward] jumpScenarioStart).lastPreviewBeforeUpdown ≠ some 5 ∧
    (runCmds 7 [.previewStepBackward, .previewStepBackward, .previewStepBackward,
      .previewRestore, .advance] jumpScenarioStart).currentSlide ≠ 5 ∧
    (runCmds 7 [.previewStepBackward, .previewStepBackward, .previewStepBackward,
      .previewRestore, .advance] jumpScenarioStart).previewSlide ≠ 6 := by
  decide

/-- C2 (amended): from `current=5, preview=6` with both slots unset
(any `total ≥ 7`), three `preview_step_backward` yield `preview=3` with
`pending_jump_origin` still unset — steering does not record it;
`preview_restore` is then a silent no-op; the subsequent `advance`
records `pending_jump_origin = 5` at that moment and sets
`current = 3`, `preview = 4`. -/
theorem jump_origin_recorded_at_advance (total : Int) (ht : 7 ≤ total) :
    runCmds total [.previewStepBackward, .previewStepBackward,
      .previewStepBackward] jumpScenarioStart = ⟨5, 3, none, false, none⟩ ∧
    previewRestoreLast ⟨5, 3, none, false, none⟩ = ⟨5, 3, none, false, none⟩ ∧
    nextSlide total ⟨5, 3, none, false, none⟩ = ⟨3, 4, some 5, false, none⟩ := by
  refine ⟨rfl, rfl, ?_⟩
  have h1 : (3 : Int) < total := by omega
  have h2 : ¬ total ≤ (3 : Int) + 1 := by omega
  simp [nextSlide, h1, h2]
  omega

/-- Witness for C2 (amended) at `total = 7`. -/
theorem jump_origin_recorded_at_advance_witness :
    runCmds 7 [.previewStepBackward, .previewStepBackward,
      .previewStepBackward] jumpScenarioStart = ⟨5, 3, none, false, none⟩ ∧
    previewRestoreLast ⟨5, 3, none, false, none⟩ = ⟨5, 3, none, false, none⟩ ∧
    nextSlide 7 ⟨5, 3, none, false, none⟩ = ⟨3, 4, some 5, false, none⟩ :=
  jump_origin_recorded_at_advance 7 (by decide)

/-- C3 (confirmed): for every document with `total ≥ 1`, after the
initial load (restoring or not) and after every sequence of the nine
navigation commands, `0 ≤ current < total` and
`0 ≤ preview ≤ total` hold (the code in fact keeps
`preview < total` on these commands). -/
theorem nav_range_invariant (total : Int) (ht : 1 ≤ total) (r : Bool)
    (cfg : Int) (cs : List NavCmd) :
    0 ≤ (runCmds total cs (loadNav total r cfg)).currentSlide ∧
    (runCmds total cs (loadNav total r cfg)).currentSlide < total ∧
    0 ≤ (runCmds total cs (loadNav total r cfg)).previewSlide ∧
    (runCmds total cs (loadNav total r cfg)).previewSlide ≤ total := by
  obtain ⟨hc, hp, -, -⟩ :=
    runCmds_inv total ht cs (loadNav total r cfg) (loadNav_inv total ht r cfg)
  exact ⟨hc.1, hc.2, hp.1, le_of_lt hp.2⟩

/-- Witness for C3 on a two-slide deck and a concrete command mix. -/
theorem nav_range_invariant_witness :
    0 ≤ (runCmds 2 [.advance, .previewStepBackward, .previewRestore,
      .retreat, .rememberCmd, .recallCmd] (loadNav 2 false 0)).currentSlide ∧
    (runCmds 2 [.advance, .previewStepBackward, .previewRestore,
      .retreat, .rememberCmd, .recallCmd] (loadNav 2 false 0)).currentSlide < 2 ∧
    0 ≤ (runCmds 2 [.advance, .previewStepBackward, .previewRestore,
      .retreat, .rememberCmd, .recallCmd] (loadNav 2 false 0)).previewSlide ∧
    (runCmds 2 [.advance, .previewStepBackward, .previewRestore,
      .retreat, .rememberCmd, .recallCmd] (loadNav 2 false 0)).previewSlide ≤ 2 :=
  nav_range_invariant 2 (by decide) false 0
    [.advance, .previewStepBackward, .previewRestore,
      .retreat, .rememberCmd, .recallCmd]

/-- C4 (counterexample): page 0 of the loaded document is cached and
retrievable before the failing load; after `_load_pdf` fails to open
the new document, the error is surfaced but the old cache has been
closed and cleared (it is not the pre-load cache any more), and the
same get request now raises instead of returning the cached bitmap. -/
theorem load_failure_not_atomic_cex :
    getSlide rasterDemo cacheDemo 0 false = Except.ok (150, cacheDemo, false) ∧
    (loadPdf rasterDemo (Except.error "cannot open") false 0
      presenterDemo).1.slideCache = some (closeCache cacheDemo) ∧
    (loadPdf rasterDemo (Except.error "cannot open") false 0
      presenterDemo).2 = some "Failed to load PDF: cannot open" ∧
    getSlide rasterDemo (closeCache cacheDemo) 0 false =
      Except.error "document closed" ∧
    closeCache cacheDemo ≠ cacheDemo := by
  refine ⟨rfl, rfl, rfl, rfl, ?_⟩
  decide

/-- C4 (amended): when opening the new document fails, the error is
surfaced as a load failure and the navigation fields are untouched,
but the previously loaded document does NOT remain available:
`SlideCache.close` runs before the open is attempted, so the old
document handle is closed, both tier caches are cleared, and every
subsequent get request on it raises. -/
theorem load_failure_closes_previous_cache {α : Type}
    (raster : Int → Int → α) (e : String) (r : Bool) (cfg : Int)
    (ps : PresenterState α) (c : SlideCacheState α)
    (hc : ps.slideCache = some c) :
    loadPdf raster (Except.error e) r cfg ps =
      ({ ps with slideCache := some (closeCache c) },
        some ("Failed to load PDF: " ++ e)) ∧
    (closeCache c).cache = [] ∧
    (closeCache c).fullscreenCache = [] ∧
    (closeCache c).docOpen = false ∧
    (loadPdf raster (Except.error e) r cfg ps).1.nav = ps.nav ∧
    ∀ p hr, getSlide raster (closeCache c) p hr =
      Except.error "document closed" := by
  refine ⟨?_, rfl, rfl, rfl, ?_, ?_⟩
  · simp [loadPdf, hc]
  · simp [loadPdf, hc]
  · intro p hr
    cases hr <;> simp [getSlide, closeCache, lookupAssoc]

/-- Witness for C4 (amended) at the concrete demo presenter. -/
theorem load_failure_closes_previous_cache_witness :
    loadPdf rasterDemo (Except.error "cannot open") false 0 presenterDemo =
      ({ presenterDemo with slideCache := some (closeCache cacheDemo) },
        some ("Failed to load PDF: " ++ "cannot open")) ∧
    (closeCache cacheDemo).cache = [] ∧
    (closeCache cacheDemo).fullscreenCache = [] ∧
    (closeCache cacheDemo).docOpen = false ∧
    (loadPdf rasterDemo (Except.error "cannot open") false 0
      presenterDemo).1.nav = presenterDemo.nav ∧
    ∀ p hr, getSlide rasterDemo (closeCache cacheDemo) p hr =
      Except.error "document closed" :=
  load_failure_closes_previous_cache rasterDemo "cannot open" false 0
    presenterDemo cacheDemo rfl

/-- C5 (confirmed): with a document loaded, each navigation command
whose precondition is violated is a silent no-op: the embedded methods
are total (no exception is modelled or raised) and the whole
navigation state — `current_slide`, `preview_slide`,
`last_preview_before_updown`, `last_preview_used`,
`remembered_preview` — is returned unchanged. -/
theorem violated_preconditions_are_noops (total : Int) (s : NavState) :
    (s.currentSlide = 0 → prevSlide total s = s) ∧
    (total ≤ s.previewSlide → nextSlide total s = s) ∧
    (total - 1 ≤ s.previewSlide → previewNext total s = s) ∧
    (s.previewSlide = 0 → previewPrev s = s) ∧
    (s.lastPreviewBeforeUpdown = none → previewRestoreLast s = s) ∧
    (s.rememberedPreview = none → previewGotoRemembered s = s) := by
  refine ⟨?_, ?_, ?_, ?_, ?_, ?_⟩
  · intro h; unfold prevSlide; rw [if_neg (by omega)]
  · intro h; unfold nextSlide; rw [if_neg (by omega)]
  · intro h; unfold previewNext; rw [if_neg (by omega)]
  · intro h; unfold previewPrev; rw [if_neg (by omega)]
  · intro h; unfold previewRestoreLast; rw [h]
  · intro h; unfold previewGotoRemembered; rw [h]

/-- Witness for C5: all six no-ops at concrete states (`total = 3`,
`current = 0`, `preview = 9` past the end for the first three and the
two unset slots; `preview = 0` for `preview_step_backward`). -/
theorem violated_preconditions_are_noops_witness :
    prevSlide 3 ⟨0, 9, none, false, none⟩ = ⟨0, 9, none, false, none⟩ ∧
    nextSlide 3 ⟨0, 9, none, false, none⟩ = ⟨0, 9, none, false, none⟩ ∧
    previewNext 3 ⟨0, 9, none, false, none⟩ = ⟨0, 9, none, false, none⟩ ∧
    previewPrev ⟨1, 0, none, false, none⟩ = ⟨1, 0, none, false, none⟩ ∧
    previewRestoreLast ⟨0, 9, none, false, none⟩ = ⟨0, 9, none, false, none⟩ ∧
    previewGotoRemembered ⟨0, 9, none, false, none⟩ = ⟨0, 9, none, false, none⟩ :=
  ⟨(violated_preconditions_are_noops 3 ⟨0, 9, none, false, none⟩).1 rfl,
   (violated_preconditions_are_noops 3 ⟨0, 9, none, false, none⟩).2.1 (by decide),
   (violated_preconditions_are_noops 3 ⟨0, 9, none, false, none⟩).2.2.1 (by decide),
   (violated_preconditions_are_noops 3 ⟨1, 0, none, false, none⟩).2.2.2.1 rfl,
   (violated_preconditions_are_noops 3 ⟨0, 9, none, false, none⟩).2.2.2.2.1 rfl,
   (violated_preconditions_are_noops 3 ⟨0, 9, none, false, none⟩).2.2.2.2.2 rfl⟩

/-- C8 (confirmed): for a loaded (open) document and a valid page
index, `get_slide` called twice with the same `(index, tier)` returns
the identical bitmap both times, leaves the cache unchanged after the
first call has stored it, and the second call does not invoke the
rasterizer (so across the two calls it is invoked at most once: the
second call's flag is `false`). -/
theorem slide_cache_get_idempotent {α : Type} (raster : Int → Int → α)
    (c : SlideCacheState α) (p : Int) (hr : Bool)
    (hopen : c.docOpen = true) (hlo : 0 ≤ p) (hhi : p < c.totalSlides) :
    ∃ b c1 invoked1,
      getSlide raster c p hr = Except.ok (b, c1, invoked1) ∧
      getSlide raster c1 p hr = Except.ok (b, c1, false) := by
  cases hr with
  | false =>
    cases hl : lookupAssoc c.cache p with
    | some b =>
      exact ⟨b, c, false, by simp [getSlide, hl], by simp [getSlide, hl]⟩
    | none =>
      refine ⟨raster p c.dpi,
        { c with cache := (p, raster p c.dpi) :: c.cache }, true, ?_, ?_⟩
      · simp [getSlide, hl, hopen, hlo, hhi]
      · simp [getSlide, lookupAssoc]
  | true =>
    cases hl : lookupAssoc c.fullscreenCache p with
    | some b =>
      exact ⟨b, c, false, by simp [getSlide, hl], by simp [getSlide, hl]⟩
    | none =>
      refine ⟨raster p c.fullscreenDpi,
        { c with fullscreenCache := (p, raster p c.fullscreenDpi) :: c.fullscreenCache },
        true, ?_, ?_⟩
      · simp [getSlide, hl, hopen, hlo, hhi]
      · simp [getSlide, lookupAssoc]

/-- Witness for C8: a fresh three-page document, page 1, preview tier. -/
theorem slide_cache_get_idempotent_witness :
    ∃ b c1 invoked1,
      getSlide rasterDemo (mkSlideCache Int 3) 1 false =
        Except.ok (b, c1, invoked1) ∧
      getSlide rasterDemo c1 1 false = Except.ok (b, c1, false) :=
  slide_cache_get_idempotent rasterDemo (mkSlideCache Int 3) 1 false
    rfl (by decide) (by decide)

/-- C10 (counterexample): loading a zero-page document (non-restoring)
does not succeed cleanly — `update_slides` runs inside the `try` block
and its render of page 0 of the empty document raises, so the
"Failed to load PDF" error is surfaced to the operator. -/
theorem zero_page_load_not_clean_cex :
    (loadPdf rasterDemo (Except.ok (mkSlideCache Int 0)) false 0
      (presenterInit Int)).2 =
      some "Failed to load PDF: page not in document" := rfl

/-- C10 (amended): loading a zero-page document (non-restoring) sets
`current_slide = 0` and `preview_slide = -1` — the initial preview
index is negative rather than clamped into `[0, total_slides]` — and
those assignments persist, but the load then surfaces a
"Failed to load PDF" error because the immediate `update_slides`
cannot render page 0 of an empty document. -/
theorem zero_page_load_state {α : Type} (raster : Int → Int → α)
    (ps : PresenterState α) :
    (loadPdf raster (Except.ok (mkSlideCache α 0)) false 0 ps).1.nav.currentSlide = 0 ∧
    (loadPdf raster (Except.ok (mkSlideCache α 0)) false 0 ps).1.nav.previewSlide = -1 ∧
    (loadPdf raster (Except.ok (mkSlideCache α 0)) false 0 ps).2 =
      some "Failed to load PDF: page not in document" := by
  cases hsc : ps.slideCache <;>
    simp [loadPdf, hsc, updateSlides, getSlide, lookupAssoc, mkSlideCache,
      loadNav]

/-- The whitespace characters removed by Python's `str.strip()`
(ASCII range; the notes inputs of the claims only use spaces and
newlines). -/
def isPySpace (c : Char) : Bool :=
  c = ' ' ∨ c = '\t' ∨ c = '\n' ∨ c = '\x0b' ∨ c = '\x0c' ∨ c = '\r'

/-- `part.strip()`: drop leading and trailing whitespace. -/
def pyStrip (s : List Char) : List Char :=
  ((s.dropWhile isPySpace).reverse.dropWhile isPySpace).reverse

/-- `\d` of the notes-marker regexes (ASCII digits; the model restricts
Python's Unicode `\d` to ASCII, which covers the marker format
`--N--` of §6 of the spec). -/
def isAsciiDigit (c : Char) : Bool := '0' ≤ c ∧ c ≤ '9'

/-- Greedily take the leading digit run (`\d+`). -/
def takeDigits : List Char → List Char × List Char
  | [] => ([], [])
  | c :: r =>
    if isAsciiDigit c then
      let p := takeDigits r
      (c :: p.1, p.2)
    else ([], c :: r)

/-- Match the alternation `---|--\d+--` at the head of the text, the
`---` alternative first as in the regex; on success return the matched
marker token and the remaining text. -/
def matchMarker : List Char → Option (List Char × List Char)
  | '-' :: '-' :: '-' :: rest => some (['-', '-', '-'], rest)
  | '-' :: '-' :: rest =>
    let p := takeDigits rest
    match p.1, p.2 with
    | [], _ => none
    | d :: ds, '-' :: '-' :: rest2 =>
      some ('-' :: '-' :: (d :: ds) ++ ['-', '-'], rest2)
    | _ :: _, _ => none
  | _ => none

/-- Worker for `re.split(r'(---|--\d+--)', content)`: scan left to
right for the leftmost marker match, emitting the text before it, the
captured marker, and continuing after it.  `fuel` bounds the recursion;
every step consumes at least one character, so `length + 1` fuel never
runs out. -/
def reSplitAux : Nat → List Char → List Char → List (List Char)
  | 0, acc, s => [acc.reverse ++ s]
  | fuel + 1, acc, s =>
    match matchMarker s with
    | some (tok, rest) => acc.reverse :: tok :: reSplitAux fuel [] rest
    | none =>
      match s with
      | [] => [acc.reverse]
      | c :: rest => reSplitAux fuel (c :: acc) rest

/-- `re.split(r'(---|--\d+--)', content)` with the separators kept
(line 240). -/
def reSplitMarkers (s : List Char) : List (List Char) :=
  reSplitAux (s.length + 1) [] s

/-- `int(...)` on a digit run. -/
def digitsToNat (ds : List Char) : Nat :=
  ds.foldl (fun acc c => acc * 10 + (c.toNat - '0'.toNat)) 0

/-- `re.match(r'^--(\d+)--$', part_stripped)`, returning the captured
number `N`. -/
def numberedMarker : List Char → Option Nat
  | '-' :: '-' :: rest =>
    let p := takeDigits rest
    match p.1, p.2 with
    | [], _ => none
    | d :: ds, ['-', '-'] => some (digitsToNat (d :: ds))
    | _ :: _, _ => none
  | _ => none

/-- `self.notes[current_slide] = part_stripped`: a Python dict write;
the most recent write for a key wins on lookup. -/
def notesInsert (m : List (Int × List Char)) (k : Int) (v : List Char) :
    List (Int × List Char) := (k, v) :: m

/-- The per-part loop of `NotesLoader._parse_notes` (lines 242-259):
skip whitespace-only parts, `---` advances the implicit counter,
`--N--` jumps it to `N - 1` (0-indexed), anything else is note text
assigned to the current counter value. -/
def processParts : Int → List (Int × List Char) → List (List Char) →
    List (Int × List Char)
  | _, notes, [] => notes
  | cs, notes, part :: rest =>
    let p := pyStrip part
    if p = [] then processParts cs notes rest
    else if p = ['-', '-', '-'] then processParts (cs + 1) notes rest
    else
      match numberedMarker p with
      | some n => processParts ((n : Int) - 1) notes rest
      | none => processParts cs (notesInsert notes cs p) rest

/-- Parse decoded notes text into the notes mapping (lines 239-259),
starting from `current_slide = 0` and an empty dict. -/
def parseNotesContent (content : List Char) : List (Int × List Char) :=
  processParts 0 [] (reSplitMarkers content)

/-- `parseNotesContent` on a Lean string literal. -/
def parseNotes (s : String) : List (Int × List Char) :=
  parseNotesContent s.data

/-- `NotesLoader.get_notes` (lines 261-262): dict `.get` with default
empty string. -/
def getNotes (m : List (Int × List Char)) (k : Int) : List Char :=
  (lookupAssoc m k).getD []

/-- C6 (confirmed): `"--2--\nfoo\n---\nbar"` parses to exactly the
mapping `{1: "foo", 2: "bar"}` (marker `--2--` is 1-indexed and stored
0-indexed; the bare `---` then advances the counter to 2);
`"alpha\n---\nbeta\n---\ngamma"` parses to exactly
`{0: "alpha", 1: "beta", 2: "gamma"}`; and when several segments are
assigned to the same index the last one wins with no concatenation
(dict overwrite, shown universally for the dict-write operation and on
a concrete mixed-marker input). -/
theorem notes_parse_concrete :
    parseNotes "--2--\nfoo\n---\nbar" = [(2, "bar".data), (1, "foo".data)] ∧
    getNotes (parseNotes "--2--\nfoo\n---\nbar") 1 = "foo".data ∧
    getNotes (parseNotes "--2--\nfoo\n---\nbar") 2 = "bar".data ∧
    parseNotes "alpha\n---\nbeta\n---\ngamma" =
      [(2, "gamma".data), (1, "beta".data), (0, "alpha".data)] ∧
    (∀ m k v, lookupAssoc (notesInsert m k v) k = some v) ∧
    parseNotes "--1--\nfoo\n--1--\nbar" = [(0, "bar".data), (0, "foo".data)] ∧
    getNotes (parseNotes "--1--\nfoo\n--1--\nbar") 0 = "bar".data := by
  refine ⟨rfl, rfl, rfl, rfl, ?_, rfl, rfl⟩
  intro m k v
  simp [notesInsert, lookupAssoc]

/-- C7 (counterexample): the input `"--0--\nhello"` produces the key
`-1` (the numbered marker `--0--` is converted 1-indexed to 0-indexed),
so not every key of the parsed mapping is non-negative. -/
theorem notes_zero_marker_negative_key_cex :
    parseNotes "--0--\nhello" = [(-1, "hello".data)] ∧
    lookupAssoc (parseNotes "--0--\nhello") (-1) = some "hello".data ∧
    (-1 : Int) < 0 := by
  exact ⟨rfl, rfl, by decide⟩

theorem processParts_keys (parts : List (List Char)) (cs : Int)
    (notes : List (Int × List Char)) (hcs : -1 ≤ cs)
    (hn : ∀ p ∈ notes, -1 ≤ p.1) :
    ∀ p ∈ processParts cs notes parts, -1 ≤ p.1 := by
  induction parts generalizing cs notes with
  | nil => exact hn
  | cons part rest ih =>
    unfold processParts
    try dsimp only
    split_ifs with h1 h2
    · exact ih cs notes hcs hn
    · exact ih (cs + 1) notes (by omega) hn
    · cases hm : numberedMarker (pyStrip part) with
      | some n => exact ih ((n : Int) - 1) notes (by omega) hn
      | none =>
        refine ih cs (notesInsert notes cs (pyStrip part)) hcs ?_
        intro p hp
        rcases List.mem_cons.mp hp with h | h
        · rw [h]; exact hcs
        · exact hn p h

/-- C7 (amended): every key of the parsed notes mapping is at least
`-1`: the implicit counter starts at 0, the bare separator only
increments it, and a numbered marker `--N--` with `N ≥ 0` sets it to
`N - 1 ≥ -1`; keys below `-1` are impossible, and `-1` itself only
arises from a `--0--` marker. -/
theorem notes_keys_at_least_neg_one (content : List Char) (k : Int)
    (v : List Char) (hmem : (k, v) ∈ parseNotesContent content) :
    -1 ≤ k := by
  have h := processParts_keys (reSplitMarkers content) 0 []
    (by omega) (by intro p hp; simp at hp)
  exact h (k, v) hmem

/-- Witness for C7 (amended) at the `--0--` input producing key `-1`. -/
theorem notes_keys_at_least_neg_one_witness :
    ((-1 : Int), "hello".data) ∈ parseNotesContent ("--0--\nhello".data) ∧
    (-1 : Int) ≤ -1 :=
  ⟨by decide,
   notes_keys_at_least_neg_one ("--0--\nhello".data) (-1) "hello".data
     (by decide)⟩

/-- A UTF-8 continuation byte (`10xxxxxx`). -/
def isCont (b : Nat) : Bool := 128 ≤ b ∧ b < 192

/-- Decode one UTF-8 scalar value at the head of the byte list, as
Python's strict 'utf-8' codec does: rejects stray continuation bytes,
invalid lead bytes, truncated sequences, overlong encodings,
surrogates, and code points beyond U+10FFFF.  On success returns the
code point and the remaining bytes (at least one byte consumed). -/
def utf8DecodeOne : List Nat → Option (Nat × List Nat)
  | [] => none
  | b :: rest =>
    if b < 128 then some (b, rest)
    else if b < 192 then none
    else if b < 224 then
      match rest with
      | b1 :: rest1 =>
        if isCont b1 then
          let cp := (b - 192) * 64 + (b1 - 128)
          if cp < 128 then none else some (cp, rest1)
        else none
      | [] => none
    else if b < 240 then
      match rest with
      | b1 :: b2 :: rest2 =>
        if isCont b1 ∧ isCont b2 then
          let cp := (b - 224) * 4096 + (b1 - 128) * 64 + (b2 - 128)
          if cp < 2048 then none
          else if 55296 ≤ cp ∧ cp < 57344 then none
          else some (cp, rest2)
        else none
      | _ => none
    else if b < 245 then
      match rest with
      | b1 :: b2 :: b3 :: rest3 =>
        if isCont b1 ∧ isCont b2 ∧ isCont b3 then
          let cp := (b - 240) * 262144 + (b1 - 128) * 4096 +
            (b2 - 128) * 64 + (b3 - 128)
          if cp < 65536 then none
          else if 1114112 ≤ cp then none
          else some (cp, rest3)
        else none
      | _ => none
    else none

/-- Strict UTF-8 decode of a whole byte list (`fuel`-bounded; every
scalar consumes at least one byte, so `length` fuel suffices). -/
def utf8DecodeAux : Nat → List Nat → Option (List Nat)
  | _, [] => some []
  | 0, _ :: _ => none
  | fuel + 1, b :: rest =>
    match utf8DecodeOne (b :: rest) with
    | some (cp, rest2) => (utf8DecodeAux fuel rest2).map (fun cs => cp :: cs)
    | none => none

/-- Python `open(..., encoding='utf-8').read()`: strict decode. -/
def utf8Decode (bs : List Nat) : Option (List Nat) :=
  utf8DecodeAux bs.length bs

/-- Python's 'latin-1' codec: total — every byte `b` decodes to the
code point `b`, so decoding can never fail. -/
def latin1Decode (bs : List Nat) : Option (List Nat) :=
  some (bs.map (fun b => b))

/-- The cp1252 mapping for a single byte: bytes `0x80..0x9F` are
remapped to their Windows-1252 code points, with the five undefined
bytes (`0x81, 0x8D, 0x8F, 0x90, 0x9D`) failing; all other bytes decode
to themselves. -/
def cp1252Byte : Nat → Option Nat
  | 128 => some 8364
  | 129 => none
  | 130 => some 8218
  | 131 => some 402
  | 132 => some 8222
  | 133 => some 8230
  | 134 => some 8224
  | 135 => some 8225
  | 136 => some 710
  | 137 => some 8240
  | 138 => some 352
  | 139 => some 8249
  | 140 => some 338
  | 141 => none
  | 142 => some 381
  | 143 => none
  | 144 => none
  | 145 => some 8216
  | 146 => some 8217
  | 147 => some 8220
  | 148 => some 8221
  | 149 => some 8226
  | 150 => some 8211
  | 151 => some 8212
  | 152 => some 732
  | 153 => some 8482
  | 154 => some 353
  | 155 => some 8250
  | 156 => some 339
  | 157 => none
  | 158 => some 382
  | 159 => some 376
  | b => some b

/-- Python's 'cp1252' codec over a byte list. -/
def cp1252Decode (bs : List Nat) : Option (List Nat) :=
  bs.mapM cp1252Byte

/-- Python's 'iso-8859-1' codec: identical byte-to-code-point identity
mapping as 'latin-1', also total. -/
def iso88591Decode (bs : List Nat) : Option (List Nat) :=
  some (bs.map (fun b => b))

/-- UTF-8 decode with `errors='replace'`: invalid positions emit
U+FFFD (65533) and skip one byte (approximating Python's replacement
granularity; per C9 this branch of the loader is unreachable). -/
def utf8ReplaceAux : Nat → List Nat → List Nat
  | _, [] => []
  | 0, _ :: _ => []
  | fuel + 1, b :: rest =>
    match utf8DecodeOne (b :: rest) with
    | some (cp, rest2) => cp :: utf8ReplaceAux fuel rest2
    | none => 65533 :: utf8ReplaceAux fuel rest

/-- Which attempt of the encoding loop produced the text. -/
inductive NotesEncoding where
  | utf8
  | latin1
  | cp1252
  | iso88591
  | replacement
deriving DecidableEq, Repr

/-- The encoding fallback loop of `NotesLoader._parse_notes`
(lines 211-237): try 'utf-8', 'latin-1', 'cp1252', 'iso-8859-1' in
order, breaking at the first read that raises no `UnicodeDecodeError`;
if none succeeded, re-read with `errors='replace'`.  Returns the
decoded code points and which attempt produced them. -/
def decodeNotes (bs : List Nat) : List Nat × NotesEncoding :=
  match utf8Decode bs with
  | some cs => (cs, .utf8)
  | none =>
    match latin1Decode bs with
    | some cs => (cs, .latin1)
    | none =>
      match cp1252Decode bs with
      | some cs => (cs, .cp1252)
      | none =>
        match iso88591Decode bs with
        | some cs => (cs, .iso88591)
        | none => (utf8ReplaceAux bs.length bs, .replacement)

/-- C9 (confirmed): for every byte content, the ordered decode loop
succeeds no later than its second attempt — 'latin-1' decodes every
byte sequence — so the 'cp1252' and 'iso-8859-1' attempts and the
lossy-replacement fallback are unreachable, and decoding never raises
(the loop is a total function). -/
theorem notes_decode_total (bs : List Nat) :
    ((decodeNotes bs).2 = NotesEncoding.utf8 ∨
      (decodeNotes bs).2 = NotesEncoding.latin1) ∧
    (decodeNotes bs).2 ≠ NotesEncoding.cp1252 ∧
    (decodeNotes bs).2 ≠ NotesEncoding.iso88591 ∧
    (decodeNotes bs).2 ≠ NotesEncoding.replacement := by
  unfold decodeNotes
  cases h : utf8Decode bs with
  | some cs => exact ⟨Or.inl rfl, by simp, by simp, by simp⟩
  | none =>
    unfold latin1Decode
    exact ⟨Or.inr rfl, by simp, by simp, by simp⟩
